import Mathlib

/-!
# CouchSuite `couchserver` — verification of the natural-language specification

Shallow embedding of `src/couchserver/server.py` (FastAPI + sqlite backend).

* Python `bytes` values are `List Nat` with every element `< 256`.
* The sqlite database is a record of tables, each table a list of rows in
  rowid (insertion) order; `SELECT ... ORDER BY k` is modelled by a keyed
  insertion sort, lookups of primary keys by `List.find?`.
* Handlers are pure functions `DB → args → (Except HErr α) × DB`; raising
  `HTTPException(status, detail)` is `.error ⟨status, detail⟩` together with
  the unchanged (uncommitted) database state.
* Nondeterministic inputs of the Python code (random salts, `uuid4()`,
  `datetime.utcnow()`, `secrets.token_hex`) are explicit parameters.
* `hashlib`/`hmac` primitives (SHA-256, HMAC-SHA-256, PBKDF2) and urlsafe
  base64 are implemented concretely below, bit-for-bit after the RFCs the
  Python standard library implements.
-/

namespace CouchServer

/-! ## Bytes and UTF-8 (`str.encode("utf-8")`) -/

/-- UTF-8 encoding of a single code point, as in CPython's `str.encode`. -/
def encodeCharUtf8 (c : Char) : List Nat :=
  let n := c.toNat
  if n < 128 then [n]
  else if n < 2048 then [192 + n / 64, 128 + n % 64]
  else if n < 65536 then [224 + n / 4096, 128 + (n / 64) % 64, 128 + n % 64]
  else [240 + n / 262144, 128 + (n / 4096) % 64, 128 + (n / 64) % 64, 128 + n % 64]

/-- `s.encode("utf-8")`. -/
def utf8Encode (s : String) : List Nat :=
  s.data.flatMap encodeCharUtf8

/-- UTF-8 decoding (`bytes.decode("utf-8")`); CPython raises on malformed
input, modelled here by returning the replacement result of `Char.ofNat`
on the decoded code point — never reached on outputs of `utf8Encode`. -/
def utf8Decode : List Nat → List Char
  | [] => []
  | b :: bs =>
    if b < 128 then Char.ofNat b :: utf8Decode bs
    else if b < 224 then
      match bs with
      | b2 :: rest => Char.ofNat ((b - 192) * 64 + (b2 - 128)) :: utf8Decode rest
      | [] => [Char.ofNat b]
    else if b < 240 then
      match bs with
      | b2 :: b3 :: rest =>
          Char.ofNat ((b - 224) * 4096 + (b2 - 128) * 64 + (b3 - 128)) :: utf8Decode rest
      | _ => [Char.ofNat b]
    else
      match bs with
      | b2 :: b3 :: b4 :: rest =>
          Char.ofNat ((b - 240) * 262144 + (b2 - 128) * 4096 + (b3 - 128) * 64 + (b4 - 128)) ::
            utf8Decode rest
      | _ => [Char.ofNat b]

/-! ## SHA-256 (`hashlib.sha256`) -/

/-- Truncation to a 32-bit word. -/
def w32 (x : Nat) : Nat := x % 4294967296

/-- Right rotation of a 32-bit word. -/
def rotr (n x : Nat) : Nat := x / 2 ^ n + x % 2 ^ n * 2 ^ (32 - n)

/-- Logical right shift. -/
def shr (n x : Nat) : Nat := x / 2 ^ n

def sha256K : List Nat :=
  [1116352408, 1899447441, 3049323471, 3921009573, 961987163,
   1508970993, 2453635748, 2870763221, 3624381080, 310598401,
   607225278, 1426881987, 1925078388, 2162078206, 2614888103,
   3248222580, 3835390401, 4022224774, 264347078, 604807628,
   770255983, 1249150122, 1555081692, 1996064986, 2554220882,
   2821834349, 2952996808, 3210313671, 3336571891, 3584528711,
   113926993, 338241895, 666307205, 773529912, 1294757372,
   1396182291, 1695183700, 1986661051, 2177026350, 2456956037,
   2730485921, 2820302411, 3259730800, 3345764771, 3516065817,
   3600352804, 4094571909, 275423344, 430227734, 506948616,
   659060556, 883997877, 958139571, 1322822218, 1537002063,
   1747873779, 1955562222, 2024104815, 2227730452, 2361852424,
   2428436474, 2756734187, 3204031479, 3329325298]

/-- The eight working variables of the SHA-256 compression function. -/
structure Hash8 where
  a : Nat
  b : Nat
  c : Nat
  d : Nat
  e : Nat
  f : Nat
  g : Nat
  h : Nat
deriving DecidableEq, Repr

def sha256H0 : Hash8 :=
  ⟨1779033703, 3144134277, 1013904242, 2773480762,
   1359893119, 2600822924, 528734635, 1541459225⟩

def bigSigma0 (x : Nat) : Nat := (rotr 2 x) ^^^ (rotr 13 x) ^^^ (rotr 22 x)

def bigSigma1 (x : Nat) : Nat := (rotr 6 x) ^^^ (rotr 11 x) ^^^ (rotr 25 x)

def smallSigma0 (x : Nat) : Nat := (rotr 7 x) ^^^ (rotr 18 x) ^^^ (shr 3 x)

def smallSigma1 (x : Nat) : Nat := (rotr 17 x) ^^^ (rotr 19 x) ^^^ (shr 10 x)

def compressStep (st : Hash8) (kw : Nat × Nat) : Hash8 :=
  let t1 := w32 (st.h + bigSigma1 st.e + ((st.e &&& st.f) ^^^ ((st.e ^^^ 4294967295) &&& st.g)) +
    kw.1 + kw.2)
  let t2 := w32 (bigSigma0 st.a + ((st.a &&& st.b) ^^^ (st.a &&& st.c) ^^^ (st.b &&& st.c)))
  ⟨w32 (t1 + t2), st.a, st.b, st.c, w32 (st.d + t1), st.e, st.f, st.g⟩

/-- Extend the 16 message-schedule words to 64 (48 extension rounds). -/
def scheduleFrom (ws : List Nat) : Nat → List Nat
  | 0 => ws
  | n + 1 =>
    let len := ws.length
    let next := w32 (smallSigma1 (ws.getD (len - 2) 0) + ws.getD (len - 7) 0 +
      smallSigma0 (ws.getD (len - 15) 0) + ws.getD (len - 16) 0)
    scheduleFrom (ws ++ [next]) n

/-- Big-endian 32-bit words from bytes. -/
def bytesToWords : List Nat → List Nat
  | b1 :: b2 :: b3 :: b4 :: rest =>
      (b1 * 16777216 + b2 * 65536 + b3 * 256 + b4) :: bytesToWords rest
  | _ => []

/-- Big-endian bytes of a 32-bit word. -/
def wordBytes (x : Nat) : List Nat :=
  [x / 16777216 % 256, x / 65536 % 256, x / 256 % 256, x % 256]

def compressChunk (h0 : Hash8) (chunk : List Nat) : Hash8 :=
  let w := scheduleFrom (bytesToWords chunk) 48
  let st := (sha256K.zip w).foldl compressStep h0
  ⟨w32 (h0.a + st.a), w32 (h0.b + st.b), w32 (h0.c + st.c), w32 (h0.d + st.d),
   w32 (h0.e + st.e), w32 (h0.f + st.f), w32 (h0.g + st.g), w32 (h0.h + st.h)⟩

/-- SHA-256 padding: 0x80, zeros to 56 mod 64, 8-byte big-endian bit length. -/
def sha256Pad (msg : List Nat) : List Nat :=
  let len := msg.length
  let zeros := (64 - (len + 9) % 64) % 64
  msg ++ [128] ++ List.replicate zeros 0 ++ wordBytes (len * 8 / 4294967296) ++ wordBytes (len * 8)

def chunks64 (l : List Nat) : List (List Nat) :=
  if l.isEmpty then [] else l.take 64 :: chunks64 (l.drop 64)
termination_by l.length
decreasing_by
  simp [List.isEmpty_iff] at *
  cases l with
  | nil => simp_all
  | cons x xs => simp

def serializeHash (st : Hash8) : List Nat :=
  wordBytes st.a ++ wordBytes st.b ++ wordBytes st.c ++ wordBytes st.d ++
  wordBytes st.e ++ wordBytes st.f ++ wordBytes st.g ++ wordBytes st.h

/-- `hashlib.sha256(msg).digest()`. -/
def sha256 (msg : List Nat) : List Nat :=
  serializeHash ((chunks64 (sha256Pad msg)).foldl compressChunk sha256H0)

/-! ## HMAC-SHA-256 (`hmac.new(key, msg, hashlib.sha256).digest()`) -/

def hmacSha256 (key msg : List Nat) : List Nat :=
  let k0 := if key.length > 64 then sha256 key else key
  let kp := k0 ++ List.replicate (64 - k0.length) 0
  sha256 ((kp.map (Nat.xor 92)) ++ sha256 ((kp.map (Nat.xor 54)) ++ msg))

/-! ## PBKDF2-HMAC-SHA-256 (`hashlib.pbkdf2_hmac("sha256", pw, salt, c)`,
default `dklen` = 32 = one block) -/

def xorBytes (a b : List Nat) : List Nat := List.zipWith Nat.xor a b

def pbkdf2Loop (pw u acc : List Nat) : Nat → List Nat
  | 0 => acc
  | n + 1 =>
    let u' := hmacSha256 pw u
    pbkdf2Loop pw u' (xorBytes acc u') n

/-- `hashlib.pbkdf2_hmac("sha256", pw, salt, iters)`; CPython raises for
`iters < 1`, modelled as the empty digest (never used by the server, which
passes the stored positive iteration count). -/
def pbkdf2HmacSha256 (pw salt : List Nat) : Nat → List Nat
  | 0 => []
  | n + 1 =>
    let u1 := hmacSha256 pw (salt ++ [0, 0, 0, 1])
    pbkdf2Loop pw u1 u1 n

/-! ## urlsafe base64 (`base64.urlsafe_b64encode` / `urlsafe_b64decode`) -/

def b64Alphabet : List Char :=
  "ABCDEFGHIJKLMNOPQRSTUVWXYZabcdefghijklmnopqrstuvwxyz0123456789-_".data

def b64Char (n : Nat) : Char := b64Alphabet.getD n 'A'

/-- Index of a character in the urlsafe alphabet. -/
def b64Val (c : Char) : Option Nat := b64Alphabet.indexOf? c

def b64EncodeList : List Nat → List Char
  | [] => []
  | [b1] => [b64Char (b1 / 4), b64Char (b1 % 4 * 16), '=', '=']
  | [b1, b2] => [b64Char (b1 / 4), b64Char (b1 % 4 * 16 + b2 / 16), b64Char (b2 % 16 * 4), '=']
  | b1 :: b2 :: b3 :: rest =>
      b64Char (b1 / 4) :: b64Char (b1 % 4 * 16 + b2 / 16) ::
      b64Char (b2 % 16 * 4 + b3 / 64) :: b64Char (b3 % 64) :: b64EncodeList rest

/-- `base64.urlsafe_b64encode(bs).decode("utf-8")`. -/
def urlsafeB64Encode (bs : List Nat) : String := ⟨b64EncodeList bs⟩

def b64DecodeList : List Char → Option (List Nat)
  | [] => some []
  | c1 :: c2 :: c3 :: c4 :: rest => do
      let v1 ← b64Val c1
      let v2 ← b64Val c2
      if c3 = '=' ∧ c4 = '=' ∧ rest = [] then pure [v1 * 4 + v2 / 16]
      else do
        let v3 ← b64Val c3
        if c4 = '=' ∧ rest = [] then pure [v1 * 4 + v2 / 16, v2 % 16 * 16 + v3 / 4]
        else do
          let v4 ← b64Val c4
          let tail ← b64DecodeList rest
          pure ([v1 * 4 + v2 / 16, v2 % 16 * 16 + v3 / 4, v3 % 4 * 64 + v4] ++ tail)
  | _ => none

/-- `base64.urlsafe_b64decode(s)`; CPython raises `binascii.Error` on
malformed input, modelled as `none`. -/
def urlsafeB64Decode (s : String) : Option (List Nat) := b64DecodeList s.data

/-! ## Server constants (module top of `server.py`) -/

/-- `COUCHSUITE_USERNAME_SECRET` environment default. -/
def USERNAME_KEY : List Nat := utf8Encode "couchsuite-secret"

def PASSWORD_ITERATIONS : Nat := 120000

def APP_VERSION : String := "0.1.0"

/-! ## Account-service primitives -/

/-- Character-level model of Python's `str.strip()` on a character list:
drop leading and trailing whitespace. -/
def stripList (l : List Char) : List Char :=
  ((l.dropWhile Char.isWhitespace).reverse.dropWhile Char.isWhitespace).reverse

/-- Model of Python's `str.strip()`. -/
def pyStrip (s : String) : String := ⟨stripList s.data⟩

/-- Model of Python's `str.lower()` (per-character lowercasing). -/
def pyLower (s : String) : String := ⟨s.data.map Char.toLower⟩

/-- Model of `username_digest`: HMAC of the whitespace-stripped, lowercased
username under the server secret, urlsafe-base64 encoded. -/
def username_digest (username : String) : String :=
  urlsafeB64Encode (hmacSha256 USERNAME_KEY (utf8Encode (pyLower (pyStrip username))))

/-- `encrypt_username`: XOR stream keyed by `sha256(USERNAME_KEY)`, cycled. -/
def encrypt_username (username : String) : String :=
  let data := utf8Encode username
  let key := sha256 USERNAME_KEY
  urlsafeB64Encode (data.enum.map fun p => Nat.xor p.2 (key.getD (p.1 % key.length) 0))

/-- `decrypt_username`: inverse XOR stream then UTF-8 decode; CPython raises
on undecodable input, which never occurs for outputs of `encrypt_username`. -/
def decrypt_username (cipherText : String) : String :=
  let encrypted := (urlsafeB64Decode cipherText).getD []
  let key := sha256 USERNAME_KEY
  ⟨utf8Decode (encrypted.enum.map fun p => Nat.xor p.2 (key.getD (p.1 % key.length) 0))⟩

/-- The record returned by `hash_password` (hash/salt base64 strings plus
the iteration count). -/
structure PasswordRecord where
  hash : String
  salt : String
  iterations : Nat
deriving DecidableEq, Repr

/-- `hash_password(password, salt=salt)`; the randomly drawn 16-byte salt of
the no-argument call is an explicit parameter. -/
def hash_password (password : String) (salt : List Nat) : PasswordRecord :=
  { hash := urlsafeB64Encode (pbkdf2HmacSha256 (utf8Encode password) salt PASSWORD_ITERATIONS)
    salt := urlsafeB64Encode salt
    iterations := PASSWORD_ITERATIONS }

/-- `verify_password`: recompute the derived key from the stored salt and
iteration count and compare (`secrets.compare_digest` is a timing-safe
string equality; the decode of a malformed stored salt raises in CPython and
is modelled as `false`, unreachable for records written by the server). -/
def verify_password (password : String) (passwordHash salt : String) (iterations : Nat) : Bool :=
  match urlsafeB64Decode salt with
  | none => false
  | some saltBytes =>
      urlsafeB64Encode (pbkdf2HmacSha256 (utf8Encode password) saltBytes iterations) == passwordHash

/-- `issue_token`: SHA-256 of `"{user_id}:{username}:{APP_VERSION}:{nonce}"`,
urlsafe-base64 without `=` padding; the `secrets.token_hex(8)` nonce is an
explicit parameter. -/
def issue_token (userId : Nat) (username nonce : String) : String :=
  (urlsafeB64Encode (sha256 (utf8Encode
    (toString userId ++ ":" ++ username ++ ":" ++ APP_VERSION ++ ":" ++ nonce)))).dropRightWhile
    (· == '=')

/-! ## JSON values

`json.dumps`/`json.loads` round-trip every JSON-representable dict, so the
`settings_json`, `metadata_json` and `proof_value` TEXT columns are modelled
at the value level by this type (numbers as rationals). -/

inductive Json where
  | null : Json
  | bool (b : Bool) : Json
  | num (q : Rat) : Json
  | str (s : String) : Json
  | arr (elems : List Json) : Json
  | obj (fields : List (String × Json)) : Json

/-- The empty JSON object `{}` (the lazily created settings row). -/
def Json.empty : Json := .obj []

/-! ## Database rows (schema per `seed.sql` usage and the spec data model) -/

structure AppRow where
  id : String
  name : String
  moonlight_name : String
  enabled : Nat
  sort_order : Int
deriving DecidableEq, Repr

structure GameRow where
  id : Nat
  slug : String
  name : String
  description : Option String
  rating : Option Rat
  cover_url : Option String
deriving DecidableEq, Repr

structure ChartRow where
  chart_date : String
  rank : Int
  steam_appid : Option Nat
  game_id : Option Nat
  name : String
deriving DecidableEq, Repr

structure UserRow where
  id : Nat
  username_digest : String
  username_cipher : String
  password_hash : String
  password_salt : String
  password_iterations : Nat
deriving DecidableEq, Repr

structure OrgRow where
  id : Nat
  slug : String
  name : String
deriving DecidableEq, Repr

structure MembershipRow where
  org_id : Nat
  user_id : Nat
  role : String
deriving DecidableEq, Repr

structure SettingsRow where
  user_id : Nat
  settings_json : Json

structure UserAppRow where
  user_id : Nat
  app_id : String
  installed : Nat
deriving DecidableEq, Repr

structure DownloadRow where
  org_id : Nat
  game_id : Nat
deriving DecidableEq, Repr

structure LibraryRow where
  org_id : Nat
  user_id : Nat
  game_id : Nat
  platform : String
  external_id : Option String
  ownership_source : String
  proof_type : Option String
  proof_value : Option Json
  verified_at : Option String

structure AccountRow where
  org_id : Nat
  user_id : Nat
  platform : String
  account_id : String
  display_name : Option String
  metadata_json : Json

structure SessionRow where
  id : Nat
  org_id : Nat
  user_id : Nat
  game_id : Nat
  status : String
  stream_url : Option String
  created_at : String
  updated_at : String
deriving DecidableEq, Repr

structure ExternalIdRow where
  game_id : Nat
  platform : String
  external_id : String
deriving DecidableEq, Repr

/-- The sqlite file: one list of rows per table, in rowid order. -/
structure DB where
  apps : List AppRow := []
  games : List GameRow := []
  charts_top10 : List ChartRow := []
  users : List UserRow := []
  orgs : List OrgRow := []
  memberships : List MembershipRow := []
  user_settings : List SettingsRow := []
  user_apps : List UserAppRow := []
  downloaded_games : List DownloadRow := []
  user_game_library : List LibraryRow := []
  user_accounts : List AccountRow := []
  sessions : List SessionRow := []
  game_external_ids : List ExternalIdRow := []

/-- HTTP error: `HTTPException(status_code, detail)`. -/
structure HErr where
  status : Nat
  detail : String
deriving DecidableEq, Repr

/-! ## Generic sqlite helpers -/

/-- `SELECT ... ORDER BY k`: a sorted permutation of the selected rows
(sqlite leaves the relative order of equal keys unspecified; insertion sort
picks one). -/
def sortByKey {α β : Type} [LinearOrder β] (key : α → β) (l : List α) : List α :=
  letI : DecidableRel (fun a b : α => key a ≤ key b) :=
    fun a b => inferInstanceAs (Decidable (key a ≤ key b))
  List.insertionSort (fun a b => key a ≤ key b) l

/-- `cur.lastrowid` for a fresh `INSERT`: one more than the largest rowid. -/
def nextId (ids : List Nat) : Nat := ids.foldr max 0 + 1

/-! ## Query helpers of `server.py` -/

/-- `user_in_org`: membership row lookup. -/
def user_in_org (db : DB) (userId orgId : Nat) : Bool :=
  db.memberships.any fun m => m.org_id == orgId && m.user_id == userId

/-- `fetch_game_map(conn)[g]` (dict keyed by the `games.id` primary key). -/
def gameById (db : DB) (g : Nat) : Option GameRow :=
  db.games.find? (·.id == g)

/-- `fetch_install_map(conn, org_id).get(g, False)`. -/
def installReady (db : DB) (orgId? : Option Nat) (g : Nat) : Bool :=
  db.downloaded_games.any fun r =>
    (match orgId? with
     | none => true
     | some o => r.org_id == o) && r.game_id == g

/-- Membership in `fetch_ownership_map(conn, org_id, user_id)` (empty when
either id is absent). -/
def ownedGame (db : DB) (orgId? userId? : Option Nat) (g : Nat) : Bool :=
  match orgId?, userId? with
  | some o, some u =>
      db.user_game_library.any fun r => r.org_id == o && r.user_id == u && r.game_id == g
  | _, _ => false

/-- `fetch_apps_map(conn)[slug]` (dict keyed by the `apps.id` primary key). -/
def appById (db : DB) (slug : String) : Option AppRow :=
  db.apps.find? (·.id == slug)

/-- `fetch_external_ids` restricted to one game: the platform → external id
mapping (the `(game_id, platform)` pair is the table's primary key). -/
def externalIdsFor (db : DB) (g : Nat) : List (String × String) :=
  (db.game_external_ids.filter (·.game_id == g)).map fun r => (r.platform, r.external_id)

structure OrgOut where
  id : Nat
  slug : String
  name : String
  role : String
deriving DecidableEq, Repr

/-- `fetch_orgs_for_user`: memberships joined to orgs, `ORDER BY o.name`. -/
def fetch_orgs_for_user (db : DB) (userId : Nat) : List OrgOut :=
  sortByKey (·.name) <| db.memberships.filterMap fun m =>
    if m.user_id == userId then
      (db.orgs.find? (·.id == m.org_id)).map fun o => OrgOut.mk m.org_id o.slug o.name m.role
    else none

/-! ## Catalog builder (`build_catalog`) -/

/-- The `UserAppOut` response model (fields of `AppIn`/`AppOut`/`UserAppOut`). -/
structure UserAppOut where
  id : String
  name : String
  moonlight_name : String
  enabled : Bool
  sort_order : Int
  description : Option String
  cover_url : Option String
  chart_rank : Option Int
  chart_date : Option String
  game_id : Option Nat
  installed : Bool
  owned : Bool
  steam_appid : Option Nat
deriving DecidableEq, Repr

/-- Chart rows of one snapshot date, `ORDER BY rank`. -/
def chartRowsFor (db : DB) (d : String) : List ChartRow :=
  sortByKey (·.rank) (db.charts_top10.filter (·.chart_date == d))

/-- `SELECT chart_date FROM charts_top10 ORDER BY chart_date DESC LIMIT 1`. -/
def latestChartDate (db : DB) : Option String :=
  (db.charts_top10.map (·.chart_date)).max?

/-- The chart snapshot `build_catalog` works from: the requested date when
the parameter is truthy (Python: non-`None`, non-empty), otherwise the most
recent date; empty when the table is empty. -/
def selectedChartRows (db : DB) (chartDate? : Option String) : List ChartRow :=
  match chartDate? with
  | some d =>
      if d ≠ "" then chartRowsFor db d
      else
        match latestChartDate db with
        | none => []
        | some latest => chartRowsFor db latest
  | none =>
      match latestChartDate db with
      | none => []
      | some latest => chartRowsFor db latest

/-- `games.get(chart["game_id"]) if chart["game_id"] else None` — the Python
truthiness test makes both `NULL` and `0` fall through to no game. -/
def resolveGame (db : DB) (chart : ChartRow) : Option GameRow :=
  match chart.game_id with
  | none => none
  | some g => if g == 0 then none else gameById db g

/-- The body of `build_catalog`'s chart loop for one row (`index` is the
1-based `enumerate` counter). -/
def chartEntry (db : DB) (userId? orgId? : Option Nat) (index : Nat) (chart : ChartRow) :
    UserAppOut :=
  match resolveGame db chart with
  | none =>
      -- fallback when chart entry has no associated game record
      { id := "chart-" ++ chart.chart_date ++ "-" ++ toString chart.rank
        name := chart.name
        moonlight_name := chart.name
        enabled := true
        sort_order := (index : Int)
        installed := false
        owned := false
        chart_rank := some chart.rank
        chart_date := some chart.chart_date
        description := none
        cover_url := none
        game_id := none
        steam_appid := chart.steam_appid }
  | some gameRow =>
      let slug := if gameRow.slug == "" then "game-" ++ toString gameRow.id else gameRow.slug
      let appRow? := appById db slug
      { id := slug
        name := gameRow.name
        moonlight_name := match appRow? with
          | some a => a.moonlight_name
          | none => gameRow.name
        enabled := match appRow? with
          | some a => a.enabled != 0
          | none => true
        sort_order := match appRow? with
          | some a => a.sort_order
          | none => chart.rank
        installed := installReady db orgId? gameRow.id
        owned := ownedGame db orgId? userId? gameRow.id
        chart_rank := some chart.rank
        chart_date := some chart.chart_date
        description := gameRow.description
        cover_url := gameRow.cover_url
        game_id := some gameRow.id
        steam_appid := chart.steam_appid }

/-- The chart loop of `build_catalog` (`enumerate(chart_rows, start=1)`). -/
def catalogFromCharts (db : DB) (userId? orgId? : Option Nat) :
    Nat → List ChartRow → List UserAppOut
  | _, [] => []
  | i, c :: cs => chartEntry db userId? orgId? i c :: catalogFromCharts db userId? orgId? (i + 1) cs

/-- The `if not catalog:` fallback: the raw apps table (dict values in rowid
order) with `installed = enabled`. -/
def fallbackCatalog (db : DB) : List UserAppOut :=
  db.apps.map fun row =>
    { id := row.id
      name := row.name
      moonlight_name := row.moonlight_name
      enabled := row.enabled != 0
      sort_order := row.sort_order
      installed := row.enabled != 0
      owned := false
      chart_rank := none
      chart_date := none
      description := none
      cover_url := none
      game_id := none
      steam_appid := none }

/-- `build_catalog(conn, user_id=..., org_id=..., chart_date=...)`. -/
def build_catalog (db : DB) (userId? orgId? : Option Nat) (chartDate? : Option String) :
    List UserAppOut :=
  let entries := catalogFromCharts db userId? orgId? 1 (selectedChartRows db chartDate?)
  if entries.isEmpty then fallbackCatalog db else entries

/-! ## Settings storage -/

/-- `INSERT INTO user_settings ... ON CONFLICT(user_id) DO UPDATE SET
settings_json=excluded.settings_json`: replace the unique conflicting row in
place, else append. -/
def upsertSettings : List SettingsRow → Nat → Json → List SettingsRow
  | [], u, s => [⟨u, s⟩]
  | r :: rs, u, s => if r.user_id == u then ⟨u, s⟩ :: rs else r :: upsertSettings rs u s

/-- `ensure_user_settings`: lazily insert an empty `'{}'` row on first read
(the `json.JSONDecodeError` fallback of the Python code cannot fire in this
value-level model of the TEXT column). -/
def ensure_user_settings (db : DB) (userId : Nat) : Json × DB :=
  match db.user_settings.find? (·.user_id == userId) with
  | none => (Json.empty, { db with user_settings := db.user_settings ++ [⟨userId, Json.empty⟩] })
  | some row => (row.settings_json, db)

/-- `update_user_settings`: full-row upsert, returns the stored value. -/
def update_user_settings (db : DB) (userId : Nat) (settings : Json) : Json × DB :=
  (settings, { db with user_settings := upsertSettings db.user_settings userId settings })

/-- `GET /users/{user_id}/settings`. -/
def get_settings (db : DB) (userId : Nat) : (Except HErr Json) × DB :=
  if db.users.any (·.id == userId) then
    let (s, db') := ensure_user_settings db userId
    (.ok s, db')
  else (.error ⟨404, "user not found"⟩, db)

/-- `PUT /users/{user_id}/settings`. -/
def put_settings (db : DB) (userId : Nat) (settings : Json) : (Except HErr Json) × DB :=
  if db.users.any (·.id == userId) then
    let (s, db') := update_user_settings db userId settings
    (.ok s, db')
  else (.error ⟨404, "user not found"⟩, db)

/-! ## Registration and login -/

structure UserLoginResponse where
  user_id : Nat
  username : String
  apps : List UserAppOut
  settings : Json
  orgs : List OrgOut
  token : String

/-- `fetch_user_record`. -/
def fetch_user_record (db : DB) (username : String) : Option UserRow :=
  db.users.find? (·.username_digest == username_digest username)

/-- `ensure_default_org`. -/
def ensure_default_org (db : DB) : Nat × DB :=
  match db.orgs.find? (·.slug == "default") with
  | some row => (row.id, db)
  | none =>
      let nid := nextId (db.orgs.map (·.id))
      (nid, { db with orgs := db.orgs ++ [⟨nid, "default", "CouchSuite Default"⟩] })

/-- `INSERT OR IGNORE INTO memberships` (primary key `(org_id, user_id)`). -/
def insertOrIgnoreMembership (rows : List MembershipRow) (orgId userId : Nat) (role : String) :
    List MembershipRow :=
  if rows.any (fun m => m.org_id == orgId && m.user_id == userId) then rows
  else rows ++ [⟨orgId, userId, role⟩]

/-- `build_login_response` (its `ensure_user_settings` call can write the
lazily created settings row, hence the state). -/
def build_login_response (db : DB) (row : UserRow) (usernameInput nonce : String) :
    UserLoginResponse × DB :=
  let (settings, db1) := ensure_user_settings db row.id
  let stored := decrypt_username row.username_cipher
  let usernameValue := if stored == "" then usernameInput else stored
  let orgs := fetch_orgs_for_user db1 row.id
  let primaryOrg := orgs.head?.map (·.id)
  let catalog := build_catalog db1 (some row.id) primaryOrg none
  (⟨row.id, usernameValue, catalog, settings, orgs, issue_token row.id usernameValue nonce⟩, db1)

/-- `POST /users` (`create_user`); the random password salt and token nonce
are explicit parameters. -/
def create_user (db : DB) (username password : String) (salt : List Nat) (nonce : String) :
    (Except HErr UserLoginResponse) × DB :=
  let u := pyStrip username
  if u == "" then (.error ⟨400, "username required"⟩, db)
  else if password == "" then (.error ⟨400, "password required"⟩, db)
  else
    let digest := username_digest u
    let encrypted := encrypt_username u
    let passwordRecord := hash_password password salt
    let totalUsers := db.users.length
    if db.users.any (·.username_digest == digest) then
      (.error ⟨409, "username already exists"⟩, db)
    else
      let userId := nextId (db.users.map (·.id))
      let newRow : UserRow :=
        ⟨userId, digest, encrypted, passwordRecord.hash, passwordRecord.salt,
          passwordRecord.iterations⟩
      let db1 := { db with users := db.users ++ [newRow] }
      let (defaultOrgId, db2) := ensure_default_org db1
      let role := if totalUsers == 0 then "owner" else "member"
      let db3 := { db2 with
        memberships := insertOrIgnoreMembership db2.memberships defaultOrgId userId role }
      -- re-fetch of the inserted row by its fresh id
      let row := (db3.users.find? (·.id == userId)).getD newRow
      let (resp, db4) := build_login_response db3 row u nonce
      (.ok resp, db4)

/-- `POST /auth/login`. -/
def login (db : DB) (username password nonce : String) : (Except HErr UserLoginResponse) × DB :=
  let u := pyStrip username
  match fetch_user_record db u with
  | none => (.error ⟨401, "invalid credentials"⟩, db)
  | some userRow =>
      if verify_password password userRow.password_hash userRow.password_salt
          userRow.password_iterations then
        let (resp, db') := build_login_response db userRow u nonce
        (.ok resp, db')
      else (.error ⟨401, "invalid credentials"⟩, db)

/-! ## Organizations -/

/-- `GET /orgs` (`list_orgs`): all orgs `ORDER BY name`, role hard-coded. -/
def list_orgs (db : DB) : List OrgOut :=
  (sortByKey (·.name) db.orgs).map fun o => OrgOut.mk o.id o.slug o.name "member"

/-! ## Per-user app install flag -/

/-- `INSERT INTO user_apps ... ON CONFLICT(user_id, app_id) DO UPDATE SET
installed=excluded.installed`. -/
def upsertUserApp : List UserAppRow → UserAppRow → List UserAppRow
  | [], r => [r]
  | x :: xs, r =>
      if x.user_id == r.user_id && x.app_id == r.app_id then r :: xs
      else x :: upsertUserApp xs r

/-- `PUT /users/{user_id}/apps/{app_id}` (`update_user_app`). -/
def update_user_app (db : DB) (userId : Nat) (appId : String) (installed : Bool) :
    (Except HErr UserAppOut) × DB :=
  if ¬ db.users.any (·.id == userId) then (.error ⟨404, "user not found"⟩, db)
  else if ¬ db.apps.any (·.id == appId) then (.error ⟨404, "app not found"⟩, db)
  else
    let db' := { db with
      user_apps := upsertUserApp db.user_apps ⟨userId, appId, if installed then 1 else 0⟩ }
    let orgs := fetch_orgs_for_user db' userId
    let orgId? := orgs.head?.map (·.id)
    let repo := build_catalog db' (some userId) orgId? none
    match repo.find? (·.id == appId) with
    | some entry => (.ok entry, db')
    | none => (.error ⟨500, "failed to update app"⟩, db')

/-! ## Library, external accounts, ownership -/

structure GameSummary where
  id : Nat
  slug : String
  name : String
  description : Option String
  rating : Option Rat
  cover_url : Option String
  external_ids : List (String × String)
deriving DecidableEq, Repr

structure LibraryEntry where
  org_id : Nat
  user_id : Nat
  game : GameSummary
  ownership_source : String
  proof_type : Option String
  proof_value : Option Json
  verified_at : Option String
  install_ready : Bool

/-- `build_game_summary`. -/
def build_game_summary (row : GameRow) (externalIds : List (String × String)) : GameSummary :=
  ⟨row.id, row.slug, row.name, row.description, row.rating, row.cover_url, externalIds⟩

/-- `GET /users/{user_id}/library` (`user_library`). -/
def user_library (db : DB) (userId : Nat) (orgId? : Option Nat) :
    (Except HErr (List LibraryEntry)) × DB :=
  if ¬ db.users.any (·.id == userId) then (.error ⟨404, "user not found"⟩, db)
  else
    match
      ((match orgId? with
        | some o => some o
        | none => (fetch_orgs_for_user db userId).head?.map (·.id)) : Option Nat) with
    | none => (.ok [], db)
    | some orgId =>
        if ¬ user_in_org db userId orgId then (.error ⟨403, "user not in organization"⟩, db)
        else
          let rows := db.user_game_library.filter fun r =>
            r.org_id == orgId && r.user_id == userId
          if rows.isEmpty then (.ok [], db)
          else
            let entries := rows.filterMap fun r =>
              (gameById db r.game_id).map fun gameRow =>
                LibraryEntry.mk orgId userId
                  (build_game_summary gameRow (externalIdsFor db r.game_id))
                  r.ownership_source r.proof_type r.proof_value r.verified_at
                  (installReady db (some orgId) r.game_id)
            (.ok entries, db)

/-- `INSERT INTO user_accounts ... ON CONFLICT(org_id, user_id, platform) DO
UPDATE SET account_id=..., display_name=..., metadata_json=...`. -/
def upsertAccount : List AccountRow → AccountRow → List AccountRow
  | [], r => [r]
  | x :: xs, r =>
      if x.org_id == r.org_id && x.user_id == r.user_id && x.platform == r.platform then
        { x with
          account_id := r.account_id
          display_name := r.display_name
          metadata_json := r.metadata_json } :: xs
      else x :: upsertAccount xs r

/-- `POST /auth/link/steam` (`link_steam_account`); `datetime.utcnow()` is
the explicit `now` parameter. -/
def link_steam_account (db : DB) (userId orgId : Nat) (steamId : String)
    (displayName : Option String) (now : String) : (Except HErr Json) × DB :=
  if ¬ user_in_org db userId orgId then (.error ⟨403, "user not in organization"⟩, db)
  else
    let metadata := Json.obj
      ([("steam_id", Json.str steamId), ("linked_at", Json.str now)] ++
        match displayName with
        | some d => [("display_name", Json.str d)]
        | none => [])
    let accounts :=
      upsertAccount db.user_accounts ⟨orgId, userId, "steam", steamId, displayName, metadata⟩
    let db' := { db with user_accounts := accounts }
    (.ok (Json.obj
      [("linked", Json.bool true), ("platform", Json.str "steam"),
       ("org_id", Json.num orgId), ("user_id", Json.num userId)]), db')

/-- `INSERT INTO user_game_library ... ON CONFLICT(org_id, user_id, game_id)
DO UPDATE SET proof_value=..., verified_at=..., ownership_source=...` (note:
only those three columns are refreshed on conflict). -/
def upsertLibrary : List LibraryRow → LibraryRow → List LibraryRow
  | [], r => [r]
  | x :: xs, r =>
      if x.org_id == r.org_id && x.user_id == r.user_id && x.game_id == r.game_id then
        { x with
          proof_value := r.proof_value
          verified_at := r.verified_at
          ownership_source := r.ownership_source } :: xs
      else x :: upsertLibrary xs r

/-- The `game_ids` chosen by `verify_steam_ownership`: the payload list when
truthy (non-`None`, non-empty), else every game with a steam external id. -/
def chosenGameIds (db : DB) (gameIds? : Option (List Nat)) : List Nat :=
  match gameIds? with
  | some l => if l.isEmpty then (db.game_external_ids.filter (·.platform == "steam")).map (·.game_id) else l
  | none => (db.game_external_ids.filter (·.platform == "steam")).map (·.game_id)

/-- One library upsert of `verify_steam_ownership`'s loop. -/
def verifyOne (orgId userId : Nat) (steamId now : String) (db : DB) (g : Nat) : DB :=
  let externalId := (db.game_external_ids.find? fun r =>
    r.game_id == g && r.platform == "steam").map (·.external_id)
  let proof := Json.obj
    [("steam_id", Json.str steamId),
     ("external_id", match externalId with | some e => Json.str e | none => Json.null),
     ("verified_at", Json.str now)]
  let lib := upsertLibrary db.user_game_library
    ⟨orgId, userId, g, "steam", externalId, "steam", some "steam", some proof, some now⟩
  { db with user_game_library := lib }

/-- `POST /ownership/verify/steam` (`verify_steam_ownership`). -/
def verify_steam_ownership (db : DB) (userId orgId : Nat) (steamId : String)
    (gameIds? : Option (List Nat)) (now : String) :
    (Except HErr (List Nat × List LibraryEntry)) × DB :=
  if ¬ user_in_org db userId orgId then (.error ⟨403, "user not in organization"⟩, db)
  else
    let gameIds := chosenGameIds db gameIds?
    if gameIds.isEmpty then (.ok ([], []), db)
    else
      let db' := gameIds.foldl (verifyOne orgId userId steamId now) db
      match (user_library db' userId (some orgId)).1 with
      | .ok lib => (.ok (gameIds, lib), db')
      | .error e => (.error e, db')

/-! ## Sessions -/

/-- `POST /sessions` (`create_session`); `uuid4()` and `datetime.utcnow()`
are the explicit `uuid`/`now` parameters. -/
def create_session (db : DB) (orgId userId gameId : Nat) (uuid now : String) :
    (Except HErr SessionRow) × DB :=
  if ¬ user_in_org db userId orgId then (.error ⟨403, "user not in organization"⟩, db)
  else if ¬ db.games.any (·.id == gameId) then (.error ⟨404, "game not found"⟩, db)
  else if ¬ installReady db (some orgId) gameId then
    (.error ⟨409, "game not installed for organization"⟩, db)
  else
    let streamUrl := "https://stream.couchsuite.local/sessions/" ++ uuid
    let sid := nextId (db.sessions.map (·.id))
    let row : SessionRow := ⟨sid, orgId, userId, gameId, "provisioning", some streamUrl, now, now⟩
    let db' := { db with sessions := db.sessions ++ [row] }
    -- re-fetch of the inserted row by its fresh id
    (.ok ((db'.sessions.find? (·.id == sid)).getD row), db')

/-! ## Concrete databases used by witnesses and counterexamples -/

/-- A snapshot with three ranked chart rows, two of which resolve to games
(the spec's Catalog Builder test scenario). -/
def dbChartScenario : DB where
  games := [⟨10, "alpha", "Alpha", none, none, none⟩,
            ⟨20, "beta", "Beta", some "d", none, some "c"⟩]
  charts_top10 := [⟨"2024-01-01", 2, some 200, none, "Mystery"⟩,
                   ⟨"2024-01-01", 1, some 100, some 10, "Alpha"⟩,
                   ⟨"2024-01-01", 3, some 300, some 20, "Beta"⟩]
  apps := [⟨"alpha", "Alpha App", "AlphaML", 1, 5⟩]

/-- No chart rows; two apps whose rowid order disagrees with the
(sort_order, name) order. -/
def dbFallbackOrder : DB where
  apps := [⟨"b", "bApp", "bML", 1, 2⟩, ⟨"a", "aApp", "aML", 0, 1⟩]

/-- One user and one enabled app, no charts, no per-user install rows. -/
def dbInstallFlag : DB where
  users := [⟨1, "d", "c", "h", "s", 1⟩]
  apps := [⟨"a", "A", "AML", 1, 100⟩]

/-- A member user and an existing game with no download row. -/
def dbSessionBase : DB where
  users := [⟨1, "d", "c", "h", "s", 1⟩]
  orgs := [⟨1, "default", "Org"⟩]
  memberships := [⟨1, 1, "owner"⟩]
  games := [⟨10, "g", "G", none, none, none⟩]

/-- The same database after the organization's download record exists. -/
def dbSessionReady : DB :=
  { dbSessionBase with downloaded_games := [⟨1, 10⟩] }

/-- An existing user with no membership in organization 2. -/
def dbNonMember : DB where
  users := [⟨1, "d", "c", "h", "s", 1⟩]
  orgs := [⟨1, "default", "Org"⟩, ⟨2, "other", "Other"⟩]
  memberships := [⟨1, 1, "owner"⟩]
  games := [⟨10, "g", "G", none, none, none⟩]

/-- A single user whose stored password hash is the empty string (cannot
match any base64-encoded derived key) and whose digest column holds the
digest of "alice". -/
def dbWrongPassword : DB where
  users := [⟨1, username_digest "alice", "c", "", "AAAAAAAAAAAAAAAAAAAAAA==", PASSWORD_ITERATIONS⟩]

/-- A single user with an empty settings table. -/
def dbSettingsUser : DB where
  users := [⟨1, "d", "c", "h", "s", 1⟩]

/-- Two organizations out of name order plus an owner membership. -/
def dbOrgsScenario : DB where
  orgs := [⟨2, "z", "Zeta"⟩, ⟨1, "a", "Acme"⟩]
  memberships := [⟨1, 1, "owner"⟩]

/-! # Lemmas -/

/-! ## Sorting and rowid lemmas -/

theorem sortByKey_perm {α β : Type} [LinearOrder β] (key : α → β) (l : List α) :
    (sortByKey key l).Perm l := by
  unfold sortByKey
  exact List.perm_insertionSort _ l

theorem sortByKey_length {α β : Type} [LinearOrder β] (key : α → β) (l : List α) :
    (sortByKey key l).length = l.length :=
  (sortByKey_perm key l).length_eq

theorem sortByKey_mem {α β : Type} [LinearOrder β] (key : α → β) (l : List α) (a : α) :
    a ∈ sortByKey key l ↔ a ∈ l :=
  (sortByKey_perm key l).mem_iff

theorem sortByKey_pairwise {α β : Type} [LinearOrder β] (key : α → β) (l : List α) :
    (sortByKey key l).Pairwise (fun a b => key a ≤ key b) := by
  unfold sortByKey
  haveI : IsTotal α (fun a b => key a ≤ key b) := ⟨fun a b => le_total (key a) (key b)⟩
  haveI : IsTrans α (fun a b => key a ≤ key b) := ⟨fun _ _ _ h1 h2 => le_trans h1 h2⟩
  exact List.sorted_insertionSort _ l

theorem le_foldr_max {ids : List Nat} {x : Nat} (hx : x ∈ ids) : x ≤ ids.foldr max 0 := by
  induction ids with
  | nil => cases hx
  | cons y ys ih =>
    rcases List.mem_cons.mp hx with h | h
    · subst h
      simp only [List.foldr_cons]
      exact Nat.le_max_left _ _
    · simp only [List.foldr_cons]
      exact le_trans (ih h) (Nat.le_max_right _ _)

theorem lt_nextId {ids : List Nat} {x : Nat} (hx : x ∈ ids) : x < nextId ids :=
  Nat.lt_succ_of_le (le_foldr_max hx)

theorem find?_append_singleton {α : Type} (p : α → Bool) (l : List α) (r : α)
    (hl : ∀ a ∈ l, p a = false) (hr : p r = true) :
    (l ++ [r]).find? p = some r := by
  rw [List.find?_append, List.find?_eq_none.mpr, Option.none_or]
  · simp [List.find?, hr]
  · intro a ha
    simp [hl a ha]

/-! ## Settings-upsert lemmas -/

theorem find?_upsertSettings (l : List SettingsRow) (u : Nat) (s : Json) :
    (upsertSettings l u s).find? (fun r => r.user_id == u) = some ⟨u, s⟩ := by
  induction l with
  | nil => simp [upsertSettings, List.find?]
  | cons r rs ih =>
    by_cases h : (r.user_id == u) = true
    · simp [upsertSettings, h, List.find?]
    · simp only [upsertSettings, h]
      simp only [Bool.false_eq_true] at h
      simp [List.find?, h, ih]

theorem ensure_user_settings_users (db : DB) (u : Nat) :
    (ensure_user_settings db u).2.users = db.users := by
  unfold ensure_user_settings
  cases db.user_settings.find? (fun r => r.user_id == u) <;> rfl

theorem ensure_default_org_users (db : DB) :
    (ensure_default_org db).2.users = db.users := by
  unfold ensure_default_org
  cases db.orgs.find? (fun o => o.slug == "default") <;> rfl

theorem build_login_response_users (db : DB) (row : UserRow) (u n : String) :
    (build_login_response db row u n).2.users = db.users :=
  ensure_user_settings_users db row.id

/-! ## Structural lemmas about the hash primitives -/

theorem wordBytes_lt {x b : Nat} (h : b ∈ wordBytes x) : b < 256 := by
  simp only [wordBytes, List.mem_cons, List.not_mem_nil, or_false] at h
  rcases h with h | h | h | h <;> subst h <;> exact Nat.mod_lt _ (by norm_num)

theorem serializeHash_lt {st : Hash8} {b : Nat} (h : b ∈ serializeHash st) : b < 256 := by
  simp only [serializeHash, List.mem_append] at h
  rcases h with ((((((h | h) | h) | h) | h) | h) | h) | h <;> exact wordBytes_lt h

theorem sha256_length (m : List Nat) : (sha256 m).length = 32 := rfl

theorem sha256_lt {m : List Nat} {b : Nat} (h : b ∈ sha256 m) : b < 256 :=
  serializeHash_lt h

theorem hmacSha256_length (k m : List Nat) : (hmacSha256 k m).length = 32 := rfl

theorem hmacSha256_lt {k m : List Nat} {b : Nat} (h : b ∈ hmacSha256 k m) : b < 256 :=
  sha256_lt h

theorem xorBytes_length (a b : List Nat) : (xorBytes a b).length = min a.length b.length :=
  List.length_zipWith ..

theorem xorBytes_lt : ∀ (a b : List Nat), (∀ x ∈ a, x < 256) → (∀ x ∈ b, x < 256) →
    ∀ x ∈ xorBytes a b, x < 256
  | [], _, _, _, x, hx => by cases hx
  | _ :: _, [], _, _, x, hx => by cases hx
  | a :: as, b :: bs, ha, hb, x, hx => by
    simp only [xorBytes, List.zipWith_cons_cons, List.mem_cons] at hx
    rcases hx with rfl | hx
    · exact Nat.xor_lt_two_pow (n := 8) (ha a (by simp)) (hb b (by simp))
    · exact xorBytes_lt as bs (fun y hy => ha y (by simp [hy])) (fun y hy => hb y (by simp [hy]))
        x hx

theorem pbkdf2Loop_length (pw : List Nat) :
    ∀ (n : Nat) (u acc : List Nat), acc.length = 32 → (pbkdf2Loop pw u acc n).length = 32
  | 0, _, _, h => h
  | n + 1, u, acc, h => by
    simp only [pbkdf2Loop]
    exact pbkdf2Loop_length pw n _ _
      (by simp [xorBytes_length, h, hmacSha256_length])

theorem pbkdf2Loop_lt (pw : List Nat) :
    ∀ (n : Nat) (u acc : List Nat), (∀ x ∈ acc, x < 256) →
      ∀ x ∈ pbkdf2Loop pw u acc n, x < 256
  | 0, _, _, h => h
  | n + 1, u, acc, h => by
    simp only [pbkdf2Loop]
    exact pbkdf2Loop_lt pw n _ _
      (xorBytes_lt acc _ h (fun y hy => hmacSha256_lt hy))

theorem pbkdf2_length (pw salt : List Nat) {n : Nat} (h : 0 < n) :
    (pbkdf2HmacSha256 pw salt n).length = 32 := by
  cases n with
  | zero => cases h
  | succ n =>
    simp only [pbkdf2HmacSha256]
    exact pbkdf2Loop_length pw n _ _ (hmacSha256_length ..)

theorem pbkdf2_lt (pw salt : List Nat) (n : Nat) :
    ∀ x ∈ pbkdf2HmacSha256 pw salt n, x < 256 := by
  cases n with
  | zero => intro x hx; cases hx
  | succ n =>
    simp only [pbkdf2HmacSha256]
    exact pbkdf2Loop_lt pw n _ _ (fun y hy => hmacSha256_lt hy)

theorem pbkdf2_ne_nil (pw salt : List Nat) {n : Nat} (h : 0 < n) :
    pbkdf2HmacSha256 pw salt n ≠ [] := by
  intro hc
  have := pbkdf2_length pw salt h
  rw [hc] at this
  cases this

/-! ## Base64 lemmas -/

theorem b64Val_b64Char_fin : ∀ n : Fin 64, b64Val (b64Char n.val) = some n.val := by decide

theorem b64Val_b64Char {n : Nat} (h : n < 64) : b64Val (b64Char n) = some n :=
  b64Val_b64Char_fin ⟨n, h⟩

theorem b64Char_ne_pad_fin : ∀ n : Fin 64, ¬ b64Char n.val = '=' := by decide

theorem b64Char_ne_pad {n : Nat} (h : n < 64) : ¬ b64Char n = '=' :=
  b64Char_ne_pad_fin ⟨n, h⟩

theorem b64DecodeList_encodeList : ∀ (bs : List Nat), (∀ b ∈ bs, b < 256) →
    b64DecodeList (b64EncodeList bs) = some bs
  | [], _ => rfl
  | [b1], h => by
    have hb1 : b1 < 256 := h b1 (by simp)
    simp only [b64EncodeList, b64DecodeList,
      b64Val_b64Char (show b1 / 4 < 64 by omega),
      b64Val_b64Char (show b1 % 4 * 16 < 64 by omega)]
    simp only [bind, Option.bind]
    rw [if_pos (by simp)]
    simp only [pure, Option.some.injEq, List.cons.injEq, and_true]
    omega
  | [b1, b2], h => by
    have hb1 : b1 < 256 := h b1 (by simp)
    have hb2 : b2 < 256 := h b2 (by simp)
    simp only [b64EncodeList, b64DecodeList,
      b64Val_b64Char (show b1 / 4 < 64 by omega),
      b64Val_b64Char (show b1 % 4 * 16 + b2 / 16 < 64 by omega),
      b64Val_b64Char (show b2 % 16 * 4 < 64 by omega)]
    simp only [bind, Option.bind]
    rw [if_neg (by simp [b64Char_ne_pad (show b2 % 16 * 4 < 64 by omega)])]
    rw [if_pos (by simp)]
    simp only [pure, Option.some.injEq, List.cons.injEq, and_true]
    omega
  | b1 :: b2 :: b3 :: rest, h => by
    have hb1 : b1 < 256 := h b1 (by simp)
    have hb2 : b2 < 256 := h b2 (by simp)
    have hb3 : b3 < 256 := h b3 (by simp)
    have ih := b64DecodeList_encodeList rest (fun b hb => h b (by simp [hb]))
    simp only [b64EncodeList, b64DecodeList,
      b64Val_b64Char (show b1 / 4 < 64 by omega),
      b64Val_b64Char (show b1 % 4 * 16 + b2 / 16 < 64 by omega),
      b64Val_b64Char (show b2 % 16 * 4 + b3 / 64 < 64 by omega),
      b64Val_b64Char (show b3 % 64 < 64 by omega)]
    simp only [bind, Option.bind]
    rw [if_neg (by simp [b64Char_ne_pad (show b2 % 16 * 4 + b3 / 64 < 64 by omega)])]
    rw [if_neg (by simp [b64Char_ne_pad (show b3 % 64 < 64 by omega)])]
    rw [ih]
    simp only [bind, Option.bind, pure, Option.some.injEq, List.cons_append,
      List.nil_append, List.cons.injEq, and_true]
    refine ⟨by omega, by omega, by omega⟩

theorem urlsafeB64Decode_encode (bs : List Nat) (h : ∀ b ∈ bs, b < 256) :
    urlsafeB64Decode (urlsafeB64Encode bs) = some bs :=
  b64DecodeList_encodeList bs h

theorem urlsafeB64Encode_inj {a b : List Nat} (ha : ∀ x ∈ a, x < 256) (hb : ∀ x ∈ b, x < 256)
    (h : urlsafeB64Encode a = urlsafeB64Encode b) : a = b := by
  have h1 := urlsafeB64Decode_encode a ha
  rw [h, urlsafeB64Decode_encode b hb] at h1
  exact (Option.some.inj h1).symm

theorem b64EncodeList_ne_nil : ∀ {bs : List Nat}, bs ≠ [] → b64EncodeList bs ≠ []
  | [], h => absurd rfl h
  | [_], _ => by simp [b64EncodeList]
  | [_, _], _ => by simp [b64EncodeList]
  | _ :: _ :: _ :: _, _ => by simp [b64EncodeList]

theorem urlsafeB64Encode_ne_empty {bs : List Nat} (h : bs ≠ []) : urlsafeB64Encode bs ≠ "" := by
  intro hc
  exact b64EncodeList_ne_nil h (congrArg String.data hc)

/-! ## Password-verification algebra -/

theorem verify_password_hash_password (p : String) (salt : List Nat)
    (h : ∀ b ∈ salt, b < 256) :
    verify_password p (hash_password p salt).hash (hash_password p salt).salt
      (hash_password p salt).iterations = true := by
  simp only [hash_password, verify_password]
  rw [urlsafeB64Decode_encode salt h]
  simp

theorem verify_password_iff (p p' : String) (salt : List Nat) (h : ∀ b ∈ salt, b < 256) :
    verify_password p' (hash_password p salt).hash (hash_password p salt).salt
      (hash_password p salt).iterations = true ↔
    pbkdf2HmacSha256 (utf8Encode p') salt PASSWORD_ITERATIONS =
      pbkdf2HmacSha256 (utf8Encode p) salt PASSWORD_ITERATIONS := by
  simp only [hash_password, verify_password]
  rw [urlsafeB64Decode_encode salt h]
  simp only [beq_iff_eq]
  constructor
  · exact fun he => urlsafeB64Encode_inj (pbkdf2_lt _ _ _) (pbkdf2_lt _ _ _) he
  · intro he
    rw [he]

theorem verify_password_empty_hash (p s : String) {iters : Nat} (hi : 0 < iters) :
    verify_password p "" s iters = false := by
  unfold verify_password
  cases hd : urlsafeB64Decode s with
  | none => rfl
  | some saltBytes =>
    rw [beq_eq_false_iff_ne]
    exact urlsafeB64Encode_ne_empty (pbkdf2_ne_nil _ _ hi)

/-! ## Whitespace-stripping lemmas -/

theorem head?_dropWhile_false {α : Type} (p : α → Bool) :
    ∀ (l : List α) {a : α}, (l.dropWhile p).head? = some a → p a = false
  | [], a, h => by cases h
  | x :: xs, a, h => by
    by_cases hp : p x = true
    · rw [List.dropWhile_cons, if_pos hp] at h
      exact head?_dropWhile_false p xs h
    · rw [List.dropWhile_cons, if_neg hp] at h
      cases h
      exact Bool.not_eq_true _ ▸ hp

theorem dropWhile_eq_self_of_head {α : Type} (p : α → Bool) (l : List α)
    (h : ∀ a, l.head? = some a → p a = false) : l.dropWhile p = l := by
  cases l with
  | nil => rfl
  | cons x xs => simp [List.dropWhile_cons, h x rfl]

theorem dropWhile_suffix_decomp {α : Type} (p : α → Bool) :
    ∀ (m : List α), ∃ t, m = t ++ m.dropWhile p
  | [] => ⟨[], rfl⟩
  | x :: xs => by
    by_cases hp : p x = true
    · obtain ⟨t, ht⟩ := dropWhile_suffix_decomp p xs
      refine ⟨x :: t, ?h⟩
      simp only [List.dropWhile_cons, if_pos hp, List.cons_append]
      exact congrArg (x :: ·) ht
    · exact ⟨[], by simp [List.dropWhile_cons, hp]⟩

theorem stripList_idem (l : List Char) : stripList (stripList l) = stripList l := by
  unfold stripList
  have hA : ∀ a, (l.dropWhile Char.isWhitespace).head? = some a → Char.isWhitespace a = false :=
    fun _ h => head?_dropWhile_false _ _ h
  set A := l.dropWhile Char.isWhitespace with hAdef
  set C := A.reverse.dropWhile Char.isWhitespace with hCdef
  have hChead : ∀ a, C.head? = some a → Char.isWhitespace a = false :=
    fun _ h => head?_dropWhile_false _ _ h
  have hCC : C.dropWhile Char.isWhitespace = C := dropWhile_eq_self_of_head _ _ hChead
  have hBhead : ∀ a, C.reverse.head? = some a → Char.isWhitespace a = false := by
    intro a ha
    obtain ⟨t, ht⟩ := dropWhile_suffix_decomp Char.isWhitespace A.reverse
    have hA2 : A = C.reverse ++ t.reverse := by
      have h1 := congrArg List.reverse ht
      rw [List.reverse_reverse, List.reverse_append] at h1
      rw [h1, hCdef]
    have hAh : A.head? = some a := by
      rw [hA2, List.head?_append, ha]
      rfl
    exact hA a hAh
  have h1 : C.reverse.dropWhile Char.isWhitespace = C.reverse :=
    dropWhile_eq_self_of_head _ _ hBhead
  rw [h1, List.reverse_reverse, hCC]

theorem pyStrip_pyStrip (s : String) : pyStrip (pyStrip s) = pyStrip s :=
  congrArg String.mk (stripList_idem s.data)

theorem pyLower_eq_empty_iff (s : String) : pyLower s = "" ↔ s = "" := by
  constructor
  · intro h
    have h1 : s.data.map Char.toLower = [] := congrArg String.data h
    have h2 : s.data = [] := List.map_eq_nil_iff.mp h1
    cases s
    exact congrArg String.mk h2
  · intro h
    rw [h]
    rfl

theorem username_digest_pyStrip (u : String) :
    username_digest (pyStrip u) =
      urlsafeB64Encode (hmacSha256 USERNAME_KEY (utf8Encode (pyLower (pyStrip u)))) := by
  unfold username_digest
  rw [pyStrip_pyStrip]

/-! ## Catalog-builder lemmas -/

theorem catalogFromCharts_length (db : DB) (u? o? : Option Nat) :
    ∀ (i : Nat) (rows : List ChartRow), (catalogFromCharts db u? o? i rows).length = rows.length
  | _, [] => rfl
  | i, c :: cs => by
    simp only [catalogFromCharts, List.length_cons]
    rw [catalogFromCharts_length db u? o? (i + 1) cs]

theorem chartEntry_chart_rank (db : DB) (u? o? : Option Nat) (i : Nat) (c : ChartRow) :
    (chartEntry db u? o? i c).chart_rank = some c.rank := by
  unfold chartEntry
  cases resolveGame db c <;> rfl

theorem catalogFromCharts_map_rank (db : DB) (u? o? : Option Nat) :
    ∀ (i : Nat) (rows : List ChartRow),
      (catalogFromCharts db u? o? i rows).map (·.chart_rank) = rows.map (fun r => some r.rank)
  | _, [] => rfl
  | i, c :: cs => by
    simp only [catalogFromCharts, List.map_cons, chartEntry_chart_rank]
    rw [catalogFromCharts_map_rank db u? o? (i + 1) cs]

theorem catalogFromCharts_getElem? (db : DB) (u? o? : Option Nat) :
    ∀ (i : Nat) (rows : List ChartRow) (j : Nat) (hj : j < rows.length),
      (catalogFromCharts db u? o? i rows)[j]? =
        some (chartEntry db u? o? (i + j) (rows.get ⟨j, hj⟩))
  | _, [], j, hj => by cases hj
  | i, c :: cs, 0, _ => by
    simp [catalogFromCharts]
  | i, c :: cs, j + 1, hj => by
    simp only [catalogFromCharts, List.getElem?_cons_succ]
    rw [catalogFromCharts_getElem? db u? o? (i + 1) cs j (by simpa using hj)]
    have harith : i + 1 + j = i + (j + 1) := by omega
    rw [harith]
    rfl

theorem chartEntry_unresolved (db : DB) (u? o? : Option Nat) (i : Nat) (c : ChartRow)
    (h : resolveGame db c = none) :
    chartEntry db u? o? i c =
      ⟨"chart-" ++ c.chart_date ++ "-" ++ toString c.rank, c.name, c.name, true, (i : Int),
       none, none, some c.rank, some c.chart_date, none, false, false, c.steam_appid⟩ := by
  unfold chartEntry
  rw [h]

theorem build_catalog_of_ne_nil (db : DB) (u? o? : Option Nat) (d? : Option String)
    (h : selectedChartRows db d? ≠ []) :
    build_catalog db u? o? d? = catalogFromCharts db u? o? 1 (selectedChartRows db d?) := by
  unfold build_catalog
  rw [if_neg]
  intro hc
  rw [List.isEmpty_iff] at hc
  have h1 := catalogFromCharts_length db u? o? 1 (selectedChartRows db d?)
  rw [hc] at h1
  exact h (List.eq_nil_of_length_eq_zero h1.symm)

theorem build_catalog_of_nil (db : DB) (u? o? : Option Nat) (d? : Option String)
    (h : selectedChartRows db d? = []) :
    build_catalog db u? o? d? = fallbackCatalog db := by
  unfold build_catalog
  rw [h]
  rfl

theorem chartRowsFor_rank_sorted (db : DB) (d : String) :
    ((chartRowsFor db d).map (·.rank)).Pairwise (· ≤ ·) :=
  List.pairwise_map.mpr (sortByKey_pairwise _ _)

theorem selectedChartRows_rank_sorted (db : DB) (d? : Option String) :
    ((selectedChartRows db d?).map (·.rank)).Pairwise (· ≤ ·) := by
  cases d? with
  | none =>
    cases h : latestChartDate db with
    | none => simp [selectedChartRows, h]
    | some ld =>
      simp only [selectedChartRows, h]
      exact chartRowsFor_rank_sorted db ld
  | some d =>
    by_cases hd : d = ""
    · subst hd
      cases h : latestChartDate db with
      | none => simp [selectedChartRows, h]
      | some ld =>
        simp only [selectedChartRows, h, if_neg (by simp : ¬ ("" : String) ≠ "")]
        exact chartRowsFor_rank_sorted db ld
    · simp only [selectedChartRows, if_pos hd]
      exact chartRowsFor_rank_sorted db d

theorem selectedChartRows_date (db : DB) (d : String) (hd : d ≠ "") :
    ∀ r ∈ selectedChartRows db (some d), r.chart_date = d := by
  intro r hr
  simp only [selectedChartRows, if_pos hd] at hr
  unfold chartRowsFor at hr
  rw [sortByKey_mem] at hr
  have h1 := List.of_mem_filter hr
  simpa using h1

/-! # Claim theorems -/

/-- C10: GET /orgs (`list_orgs`) returns every organization — ordered by
name — with the role field fixed to the constant "member" and with output
independent of the memberships table, so the endpoint never reports a
caller's actual stored role (such as "owner"). -/
theorem C10_list_orgs_role_constant (db : DB) (ms : List MembershipRow) :
    (∀ e ∈ list_orgs db, e.role = "member") ∧
    list_orgs { db with memberships := ms } = list_orgs db ∧
    (list_orgs db).length = db.orgs.length ∧
    (∀ o ∈ db.orgs, OrgOut.mk o.id o.slug o.name "member" ∈ list_orgs db) ∧
    ((list_orgs db).map (·.name)).Pairwise (· ≤ ·) := by
  refine ⟨?role, rfl, ?len, ?mem, ?sorted⟩
  · intro e he
    unfold list_orgs at he
    obtain ⟨o, _, rfl⟩ := List.mem_map.mp he
    rfl
  · unfold list_orgs
    rw [List.length_map, sortByKey_length]
  · intro o ho
    unfold list_orgs
    exact List.mem_map.mpr ⟨o, (sortByKey_mem _ _ _).mpr ho, rfl⟩
  · unfold list_orgs
    rw [List.map_map]
    exact List.pairwise_map.mpr (sortByKey_pairwise _ _)

/-- Witness for C10 at a concrete database with an "owner" membership. -/
theorem C10_witness :
    (∀ e ∈ list_orgs dbOrgsScenario, e.role = "member") ∧
    list_orgs { dbOrgsScenario with memberships := [] } = list_orgs dbOrgsScenario :=
  ⟨(C10_list_orgs_role_constant dbOrgsScenario []).1,
   (C10_list_orgs_role_constant dbOrgsScenario []).2.1⟩

/-- C7: both login failure causes — unknown digest, and failing password
check — return the identical error value (status 401, detail "invalid
credentials") with the database unchanged, so the two causes are
indistinguishable to the caller. -/
theorem C7_login_indistinguishable (db : DB) (username password nonce : String) :
    (fetch_user_record db (pyStrip username) = none →
      login db username password nonce = (.error ⟨401, "invalid credentials"⟩, db)) ∧
    ∀ row, fetch_user_record db (pyStrip username) = some row →
      verify_password password row.password_hash row.password_salt row.password_iterations
        = false →
      login db username password nonce = (.error ⟨401, "invalid credentials"⟩, db) := by
  constructor
  · intro h
    simp only [login, h]
  · intro row h hv
    simp only [login, h, hv]
    rfl

/-- Witness for C7: an unknown username on the empty database, and a wrong
password against a stored record, both yield the same 401 error. -/
theorem C7_witness :
    login ({} : DB) "ghost" "pw" "n" = (.error ⟨401, "invalid credentials"⟩, ({} : DB)) ∧
    login dbWrongPassword "alice" "wrong" "n" =
      (.error ⟨401, "invalid credentials"⟩, dbWrongPassword) := by
  constructor
  · exact (C7_login_indistinguishable ({} : DB) "ghost" "pw" "n").1 rfl
  · refine (C7_login_indistinguishable dbWrongPassword "alice" "wrong" "n").2
      ⟨1, username_digest "alice", "c", "", "AAAAAAAAAAAAAAAAAAAAAA==", PASSWORD_ITERATIONS⟩
      ?hf ?hv
    · have hps : pyStrip "alice" = "alice" := rfl
      show dbWrongPassword.users.find?
        (·.username_digest == username_digest (pyStrip "alice")) = _
      rw [hps]
      simp [dbWrongPassword, List.find?]
    · exact verify_password_empty_hash "wrong" "AAAAAAAAAAAAAAAAAAAAAA=="
        (by norm_num [PASSWORD_ITERATIONS])

/-- C5: for a user and organization with no membership row, every
organization-scoped operation — library listing (for an existing user),
steam account linking, ownership verification, session creation — fails
with 403 "user not in organization" and returns the database unchanged. -/
theorem C5_membership_gate (db : DB) (u o : Nat) (steamId : String) (dn : Option String)
    (gids : Option (List Nat)) (g : Nat) (uuid now : String)
    (hm : user_in_org db u o = false) (hu : db.users.any (·.id == u) = true) :
    user_library db u (some o) = (.error ⟨403, "user not in organization"⟩, db) ∧
    link_steam_account db u o steamId dn now = (.error ⟨403, "user not in organization"⟩, db) ∧
    verify_steam_ownership db u o steamId gids now =
      (.error ⟨403, "user not in organization"⟩, db) ∧
    create_session db o u g uuid now = (.error ⟨403, "user not in organization"⟩, db) := by
  refine ⟨?lib, ?link, ?own, ?sess⟩
  · simp [user_library, hu, hm]
  · simp [link_steam_account, hm]
  · simp [verify_steam_ownership, hm]
  · simp [create_session, hm]

/-- Witness for C5 at a concrete database: user 1 exists but is not a
member of organization 2. -/
theorem C5_witness :
    user_library dbNonMember 1 (some 2) =
      (.error ⟨403, "user not in organization"⟩, dbNonMember) ∧
    create_session dbNonMember 2 1 10 "u" "t" =
      (.error ⟨403, "user not in organization"⟩, dbNonMember) := by
  have h := C5_membership_gate dbNonMember 1 2 "s" none none 10 "u" "t"
    (by decide) (by decide)
  exact ⟨h.1, h.2.2.2⟩

/-- C4: for a member user and an existing game, create_session returns 409
Conflict while the organization has no downloaded_games record, and with
the record present the same call succeeds, appending a new session whose
status is "provisioning" and whose stream URL is generated from the fresh
uuid. -/
theorem C4_create_session_requires_download (db : DB) (o u g : Nat) (uuid now : String)
    (hm : user_in_org db u o = true) (hg : db.games.any (·.id == g) = true) :
    (installReady db (some o) g = false →
      create_session db o u g uuid now =
        (.error ⟨409, "game not installed for organization"⟩, db)) ∧
    (installReady db (some o) g = true →
      ∃ row, create_session db o u g uuid now =
          (.ok row, { db with sessions := db.sessions ++ [row] }) ∧
        row.status = "provisioning" ∧
        row.stream_url = some ("https://stream.couchsuite.local/sessions/" ++ uuid) ∧
        row.org_id = o ∧ row.user_id = u ∧ row.game_id = g) := by
  constructor
  · intro hi
    simp [create_session, hm, hg, hi]
  · intro hi
    refine ⟨⟨nextId (db.sessions.map (·.id)), o, u, g, "provisioning",
      some ("https://stream.couchsuite.local/sessions/" ++ uuid), now, now⟩,
      ?e, rfl, rfl, rfl, rfl, rfl⟩
    simp only [create_session, hm, hg, hi, Bool.not_true, Bool.false_eq_true, not_false_iff,
      if_false, if_true]
    rw [find?_append_singleton _ _ _ ?hl ?hr]
    · rfl
    · intro a ha
      rw [beq_eq_false_iff_ne]
      exact Nat.ne_of_lt (lt_nextId (List.mem_map_of_mem (·.id) ha))
    · exact beq_self_eq_true _

/-- Witness for C4: the same concrete call fails with 409 before the
download row exists and succeeds with status "provisioning" after. -/
theorem C4_witness :
    create_session dbSessionBase 1 1 10 "uuid-1" "t" =
      (.error ⟨409, "game not installed for organization"⟩, dbSessionBase) ∧
    ∃ row, create_session dbSessionReady 1 1 10 "uuid-1" "t" =
        (.ok row, { dbSessionReady with sessions := dbSessionReady.sessions ++ [row] }) ∧
      row.status = "provisioning" ∧
      row.stream_url = some ("https://stream.couchsuite.local/sessions/uuid-1") := by
  constructor
  · exact (C4_create_session_requires_download dbSessionBase 1 1 10 "uuid-1" "t"
      (by decide) (by decide)).1 (by decide)
  · obtain ⟨row, he, hs, hurl, _⟩ := (C4_create_session_requires_download dbSessionReady
      1 1 10 "uuid-1" "t" (by decide) (by decide)).2 (by decide)
    exact ⟨row, he, hs, hurl⟩

/-- C3 (code bug): PUT /users/1/apps/a with installed=false stores the
per-user flag 0 in user_apps, yet the returned catalog entry still reports
installed=true (derived from app.enabled) because build_catalog never reads
the user_apps table. -/
theorem C3_user_app_flag_ignored :
    (update_user_app dbInstallFlag 1 "a" false).2.user_apps =
      [⟨1, "a", 0⟩] ∧
    ((update_user_app dbInstallFlag 1 "a" false).1.toOption.map fun e => e.installed) =
      some true := by
  decide

/-- C9: for an existing user, put_settings stores exactly the given blob,
get_settings returns it unchanged, a second put fully replaces the stored
value (the following get returns exactly the second blob), and a user with
no settings row gets an empty row lazily created on first read. -/
theorem C9_settings_replace (db : DB) (u : Nat) (s1 s2 : Json)
    (hu : db.users.any (·.id == u) = true) :
    ((put_settings db u s1).1 = .ok s1 ∧
      get_settings (put_settings db u s1).2 u = (.ok s1, (put_settings db u s1).2) ∧
      (put_settings (put_settings db u s1).2 u s2).1 = .ok s2 ∧
      get_settings (put_settings (put_settings db u s1).2 u s2).2 u =
        (.ok s2, (put_settings (put_settings db u s1).2 u s2).2)) ∧
    (db.user_settings.find? (·.user_id == u) = none →
      get_settings db u =
        (.ok Json.empty, { db with user_settings := db.user_settings ++ [⟨u, Json.empty⟩] })) := by
  constructor
  · refine ⟨?p1, ?g1, ?p2, ?g2⟩
    · simp [put_settings, update_user_settings, hu]
    · simp [put_settings, update_user_settings, hu, get_settings, ensure_user_settings,
        find?_upsertSettings]
    · simp [put_settings, update_user_settings, hu]
    · simp [put_settings, update_user_settings, hu, get_settings, ensure_user_settings,
        find?_upsertSettings]
  · intro hnone
    simp [get_settings, hu, ensure_user_settings, hnone, Json.empty]

/-- Witness for C9 at a concrete database: user 1 with an empty settings
table; blobs are one-key objects. -/
theorem C9_witness :
    (put_settings dbSettingsUser 1 (Json.obj [("a", Json.num 1)])).1 =
      .ok (Json.obj [("a", Json.num 1)]) ∧
    get_settings dbSettingsUser 1 =
      (.ok Json.empty,
       { dbSettingsUser with user_settings := dbSettingsUser.user_settings ++ [⟨1, Json.empty⟩] }) := by
  have h := C9_settings_replace dbSettingsUser 1 (Json.obj [("a", Json.num 1)])
    (Json.obj [("b", Json.num 2)]) (by decide)
  exact ⟨h.1.1, h.2 rfl⟩

/-- C1: for any nonempty selected chart snapshot (requested date, or most
recent when omitted — both encoded in selectedChartRows), build_catalog
yields exactly one entry per chart row, in ascending rank order, and every
row whose game cannot be resolved yields an entry with game_id = none
carrying the chart's name, rank, date and steam_appid (and no game
description/cover); rows selected for an explicit date all carry that
date. -/
theorem C1_catalog_chart_rows (db : DB) (u? o? : Option Nat) (d? : Option String)
    (hne : selectedChartRows db d? ≠ []) :
    (build_catalog db u? o? d?).length = (selectedChartRows db d?).length ∧
    (build_catalog db u? o? d?).map (·.chart_rank) =
      (selectedChartRows db d?).map (fun r => some r.rank) ∧
    ((selectedChartRows db d?).map (·.rank)).Pairwise (· ≤ ·) ∧
    (∀ (j : Nat) (hj : j < (selectedChartRows db d?).length),
      resolveGame db ((selectedChartRows db d?).get ⟨j, hj⟩) = none →
      ∃ e, (build_catalog db u? o? d?)[j]? = some e ∧
        e.game_id = none ∧
        e.name = ((selectedChartRows db d?).get ⟨j, hj⟩).name ∧
        e.chart_rank = some ((selectedChartRows db d?).get ⟨j, hj⟩).rank ∧
        e.chart_date = some ((selectedChartRows db d?).get ⟨j, hj⟩).chart_date ∧
        e.steam_appid = ((selectedChartRows db d?).get ⟨j, hj⟩).steam_appid ∧
        e.description = none ∧ e.cover_url = none) ∧
    (∀ (d : String), d ≠ "" → ∀ r ∈ selectedChartRows db (some d), r.chart_date = d) := by
  rw [build_catalog_of_ne_nil db u? o? d? hne]
  refine ⟨catalogFromCharts_length db u? o? 1 _, catalogFromCharts_map_rank db u? o? 1 _,
    selectedChartRows_rank_sorted db d?, ?unres, selectedChartRows_date db⟩
  intro j hj hr
  rw [catalogFromCharts_getElem? db u? o? 1 _ j hj, chartEntry_unresolved db u? o? (1 + j) _ hr]
  exact ⟨_, rfl, rfl, rfl, rfl, rfl, rfl, rfl, rfl⟩

/-- Witness for C1 at the three-row snapshot: three entries, and the
rank-2 row (no linked game) yields the entry with game_id = none. -/
theorem C1_witness :
    (build_catalog dbChartScenario none none (some "2024-01-01")).length =
      (selectedChartRows dbChartScenario (some "2024-01-01")).length ∧
    ∃ e, (build_catalog dbChartScenario none none (some "2024-01-01"))[1]? = some e ∧
      e.game_id = none ∧ e.name = "Mystery" := by
  have h := C1_catalog_chart_rows dbChartScenario none none (some "2024-01-01") (by decide)
  refine ⟨h.1, ?u⟩
  obtain ⟨e, he, hgid, hname, _⟩ := h.2.2.2.1 1 (by decide) (by decide)
  exact ⟨e, he, hgid, by rw [hname]; decide⟩

/-- C2 counterexample: with no chart rows, the fallback catalog keeps the
apps table's rowid order — here (sort_order 2, "bApp") before
(sort_order 1, "aApp") — so the output is not ordered by sort_order then
name as the claim states. -/
theorem C2_counterexample :
    selectedChartRows dbFallbackOrder none = [] ∧
    (build_catalog dbFallbackOrder none none none).map (fun e => (e.sort_order, e.name)) =
      [(2, "bApp"), (1, "aApp")] ∧
    ¬ ((build_catalog dbFallbackOrder none none none).map
        (fun e => (e.sort_order, e.name))).Pairwise
        (fun a b => a.1 < b.1 ∨ (a.1 = b.1 ∧ a.2 ≤ b.2)) := by
  refine ⟨by decide, by decide, by decide⟩

/-- C2 amended: when no chart rows exist for the selected date,
build_catalog returns the raw apps table as a degenerate catalog with
installed = enabled on every entry, in the apps table's stored (rowid)
order rather than sorted by sort_order and name. (The Nodup hypothesis
records that apps.id is the table's primary key, under which the Python
dict of rows is exactly the table in rowid order.) -/
theorem C2_fallback_catalog (db : DB) (u? o? : Option Nat) (d? : Option String)
    (hrows : selectedChartRows db d? = []) (_hids : (db.apps.map (·.id)).Nodup) :
    (build_catalog db u? o? d?).length = db.apps.length ∧
    ∀ (j : Nat) (hj : j < db.apps.length),
      ∃ e, (build_catalog db u? o? d?)[j]? = some e ∧
        e.id = (db.apps.get ⟨j, hj⟩).id ∧
        e.name = (db.apps.get ⟨j, hj⟩).name ∧
        e.enabled = ((db.apps.get ⟨j, hj⟩).enabled != 0) ∧
        e.installed = ((db.apps.get ⟨j, hj⟩).enabled != 0) ∧
        e.sort_order = (db.apps.get ⟨j, hj⟩).sort_order ∧
        e.owned = false ∧ e.chart_rank = none ∧ e.chart_date = none ∧ e.game_id = none := by
  rw [build_catalog_of_nil db u? o? d? hrows]
  constructor
  · exact List.length_map ..
  · intro j hj
    unfold fallbackCatalog
    rw [List.getElem?_map, List.getElem?_eq_getElem hj]
    exact ⟨_, rfl, rfl, rfl, rfl, rfl, rfl, rfl, rfl, rfl, rfl⟩

/-- Witness for C2 (amended) at the two-app database. -/
theorem C2_witness :
    (build_catalog dbFallbackOrder none none none).length = dbFallbackOrder.apps.length ∧
    ∃ e, (build_catalog dbFallbackOrder none none none)[0]? = some e ∧
      e.installed = ((dbFallbackOrder.apps.get ⟨0, by decide⟩).enabled != 0) := by
  have h := C2_fallback_catalog dbFallbackOrder none none none (by decide) (by decide)
  obtain ⟨e, he, _, _, _, hinst, _⟩ := h.2 0 (by decide)
  exact ⟨h.1, e, he, hinst⟩

/-- A successful registration appends exactly one user row carrying the
digest of the stripped username; the rest of the response pipeline leaves
the users table untouched. -/
theorem create_user_success_users (db : DB) (u p : String) (s : List Nat) (n : String)
    (hu : pyStrip u ≠ "") (hp : p ≠ "")
    (hfresh : db.users.any (·.username_digest == username_digest (pyStrip u)) = false) :
    (∃ resp, (create_user db u p s n).1 = .ok resp) ∧
    (create_user db u p s n).2.users =
      db.users ++ [⟨nextId (db.users.map (·.id)), username_digest (pyStrip u),
        encrypt_username (pyStrip u), (hash_password p s).hash, (hash_password p s).salt,
        (hash_password p s).iterations⟩] := by
  simp only [create_user, beq_eq_false_iff_ne.mpr hu, beq_eq_false_iff_ne.mpr hp, hfresh,
    Bool.false_eq_true, if_false]
  constructor
  · exact ⟨_, rfl⟩
  · rw [build_login_response_users]
    have h2 := ensure_default_org_users
      ({ db with users := db.users ++ [⟨nextId (db.users.map (·.id)),
        username_digest (pyStrip u), encrypt_username (pyStrip u), (hash_password p s).hash,
        (hash_password p s).salt, (hash_password p s).iterations⟩] } : DB)
    simp only at h2
    simp only [h2]

/-- C6: after a successful registration of u1, registering any u2 that is
equal to u1 after whitespace-stripping and lowercasing (with a nonempty
password) fails with 409 "username already exists" and returns the state —
in particular the users table — unchanged, because the normalized username
digest already exists. -/
theorem C6_duplicate_username (db : DB) (u1 p1 u2 p2 : String) (s1 s2 : List Nat)
    (n1 n2 : String) (h1 : pyStrip u1 ≠ "") (hp1 : p1 ≠ "") (hp2 : p2 ≠ "")
    (hfresh : db.users.any (·.username_digest == username_digest (pyStrip u1)) = false)
    (hnorm : pyLower (pyStrip u2) = pyLower (pyStrip u1)) :
    (∃ resp, (create_user db u1 p1 s1 n1).1 = .ok resp) ∧
    create_user (create_user db u1 p1 s1 n1).2 u2 p2 s2 n2 =
      (.error ⟨409, "username already exists"⟩, (create_user db u1 p1 s1 n1).2) := by
  obtain ⟨hok, husers⟩ := create_user_success_users db u1 p1 s1 n1 h1 hp1 hfresh
  refine ⟨hok, ?second⟩
  have hdig : username_digest (pyStrip u2) = username_digest (pyStrip u1) := by
    rw [username_digest_pyStrip, username_digest_pyStrip, hnorm]
  have h2 : pyStrip u2 ≠ "" := by
    intro hc
    apply h1
    have he : pyLower (pyStrip u1) = "" := by
      rw [← hnorm, hc]
      rfl
    exact (pyLower_eq_empty_iff _).mp he
  set db1 := (create_user db u1 p1 s1 n1).2 with hdb1
  have hconf : db1.users.any (·.username_digest == username_digest (pyStrip u2)) = true := by
    rw [husers, hdig, List.any_append]
    simp
  simp only [create_user, beq_eq_false_iff_ne.mpr h2, beq_eq_false_iff_ne.mpr hp2, hconf,
    Bool.false_eq_true, if_false, if_true]

/-- Witness for C6: registering "Alice " on an empty database and then
" ALICE" (same stripped-lowercased form) hits the conflict. -/
theorem C6_witness :
    (∃ resp, (create_user ({} : DB) "Alice " "pw" [] "n1").1 = .ok resp) ∧
    create_user (create_user ({} : DB) "Alice " "pw" [] "n1").2 " ALICE" "pw2" [] "n2" =
      (.error ⟨409, "username already exists"⟩,
       (create_user ({} : DB) "Alice " "pw" [] "n1").2) := by
  exact C6_duplicate_username ({} : DB) "Alice " "pw" " ALICE" "pw2" [] [] "n1" "n2"
    (by decide) (by decide) (by decide) rfl (by decide)

/-- C8 counterexample: PBKDF2-HMAC-SHA-256 always emits exactly 32 bytes,
so over the infinitely many passwords two distinct ones collide; for such a
pair, verify_password accepts the other password, refuting "returns false
for every p' different from p". -/
theorem C8_counterexample :
    ¬ ∀ (p p' : String) (salt : List Nat), (∀ b ∈ salt, b < 256) → p' ≠ p →
      verify_password p' (hash_password p salt).hash (hash_password p salt).salt
        (hash_password p salt).iterations = false := by
  intro hall
  have hsalt : ∀ b ∈ List.replicate 16 0, b < 256 := by
    intro b hb
    rw [List.eq_of_mem_replicate hb]
    norm_num
  have hlen : ∀ s : String,
      (pbkdf2HmacSha256 (utf8Encode s) (List.replicate 16 0) PASSWORD_ITERATIONS).length = 32 :=
    fun _ => pbkdf2_length _ _ (by norm_num [PASSWORD_ITERATIONS])
  obtain ⟨p, q, hne, heq⟩ := Finite.exists_ne_map_eq_of_infinite
    (fun s : String => (fun i : Fin 32 =>
      (⟨(pbkdf2HmacSha256 (utf8Encode s) (List.replicate 16 0) PASSWORD_ITERATIONS).getD i.val 0
          % 256,
        Nat.mod_lt _ (by norm_num)⟩ : Fin 256)))
  have hFeq : pbkdf2HmacSha256 (utf8Encode q) (List.replicate 16 0) PASSWORD_ITERATIONS =
      pbkdf2HmacSha256 (utf8Encode p) (List.replicate 16 0) PASSWORD_ITERATIONS := by
    apply List.ext_getElem (by rw [hlen, hlen])
    intro i hq hp
    have hi : i < 32 := by
      rw [hlen] at hq
      exact hq
    have hfun := congrFun heq ⟨i, hi⟩
    have hv := congrArg Fin.val hfun
    simp only at hv
    rw [List.getD_eq_getElem _ _ hp, List.getD_eq_getElem _ _ hq] at hv
    have hbp := pbkdf2_lt (utf8Encode p) (List.replicate 16 0) PASSWORD_ITERATIONS _
      (List.getElem_mem hp)
    have hbq := pbkdf2_lt (utf8Encode q) (List.replicate 16 0) PASSWORD_ITERATIONS _
      (List.getElem_mem hq)
    rw [Nat.mod_eq_of_lt hbp, Nat.mod_eq_of_lt hbq] at hv
    exact hv.symm
  have hacc : verify_password q (hash_password p (List.replicate 16 0)).hash
      (hash_password p (List.replicate 16 0)).salt
      (hash_password p (List.replicate 16 0)).iterations = true :=
    (verify_password_iff p q (List.replicate 16 0) hsalt).mpr hFeq
  have hrej := hall p q (List.replicate 16 0) hsalt (Ne.symm hne)
  rw [hacc] at hrej
  cases hrej

/-- C8 amended: verify_password accepts the original password of a
hash_password record always, and accepts another password p' exactly when
p' has the same PBKDF2 digest as p under the stored salt and iteration
count (fixed-length digests admit collisions in principle, so "false for
every p' not equal to p" cannot hold universally). -/
theorem C8_verify_password (p p' : String) (salt : List Nat) (h : ∀ b ∈ salt, b < 256) :
    verify_password p (hash_password p salt).hash (hash_password p salt).salt
      (hash_password p salt).iterations = true ∧
    (verify_password p' (hash_password p salt).hash (hash_password p salt).salt
      (hash_password p salt).iterations = true ↔
      pbkdf2HmacSha256 (utf8Encode p') salt PASSWORD_ITERATIONS =
        pbkdf2HmacSha256 (utf8Encode p) salt PASSWORD_ITERATIONS) :=
  ⟨verify_password_hash_password p salt h, verify_password_iff p p' salt h⟩

/-- Witness for C8 (amended) at a concrete password and the all-zero
16-byte salt. -/
theorem C8_witness :
    verify_password "pw" (hash_password "pw" (List.replicate 16 0)).hash
      (hash_password "pw" (List.replicate 16 0)).salt
      (hash_password "pw" (List.replicate 16 0)).iterations = true ∧
    (verify_password "other" (hash_password "pw" (List.replicate 16 0)).hash
      (hash_password "pw" (List.replicate 16 0)).salt
      (hash_password "pw" (List.replicate 16 0)).iterations = true ↔
      pbkdf2HmacSha256 (utf8Encode "other") (List.replicate 16 0) PASSWORD_ITERATIONS =
        pbkdf2HmacSha256 (utf8Encode "pw") (List.replicate 16 0) PASSWORD_ITERATIONS) :=
  C8_verify_password "pw" "other" (List.replicate 16 0) (by decide)

end CouchServer
